import Mathlib

/-!
Verification of the stock-analysis dashboard script (stock_analysis_app.py).

The script is a linear Streamlit program: it loads the S&P 500 ticker
directory, loads a daily OHLCV price table for the chosen ticker and date
range, offers a preview and a CSV download of the selected columns, and
renders a candlestick chart with optional RSI, volume, SMA and
Bollinger-band traces.

The embedding below models:
* the indicator computations the script delegates to libraries
  (pandas `Series.rolling(window).mean() / .std()` and `talib.RSI`),
  with prices as rationals and missing values (NaN) as `Option.none`;
  the standard deviation, a real square root, lives in `ℝ`;
* the price table (`DF`), pandas `to_csv` and the UTF-8 encoding used by
  `convert_df_to_csv`;
* the single HTTP GET of `get_sp500_components` (the Python call
  `requests.get(sp500_url, headers)` binds its second positional argument
  to `params`, not `headers`);
* the top-level script flow (`runApp`): date validation, data load,
  preview/export, and chart assembly (`buildFigure`) with its trace order,
  the `df.empty` error path, and the abort that `talib.RSI` causes when
  called with a period below 2 (TA-Lib rejects `timeperiod < 2` as a bad
  parameter and the wrapper raises).
-/

/-! ### Indicator calculator: pandas rolling statistics -/

/-- Arithmetic mean of a list of rationals (`sum / len`). -/
def listMean (xs : List ℚ) : ℚ := xs.sum / (xs.length : ℚ)

/-- The trailing window of length `w` ending at index `i`:
`xs[i+1-w : i+1]`, the values a pandas rolling window sees at row `i`. -/
def windowSlice (w : ℕ) (xs : List ℚ) (i : ℕ) : List ℚ :=
  (xs.take (i + 1)).drop (i + 1 - w)

/-- Sample variance with `ddof = 1` (the pandas `rolling(...).std()`
default): `Σ (x - mean)² / (len - 1)`. -/
def sampleVar (xs : List ℚ) : ℚ :=
  ((xs.map (fun x => (x - listMean xs) ^ 2)).sum) / ((xs.length : ℚ) - 1)

/-- Pandas `Series.rolling(window=w).mean()` (source line 119 / 130): value at row
`i` is the mean of the trailing `w` closes, `NaN` (here `none`) until the
window is full, i.e. for the first `w - 1` rows. -/
def rollingMean (w : ℕ) (xs : List ℚ) : List (Option ℚ) :=
  (List.range xs.length).map (fun i =>
    if w ≤ i + 1 then some (listMean (windowSlice w xs i)) else none)

/-- The sample variance underlying `Series.rolling(window=w).std()`
(source line 131). pandas uses `ddof = 1`, so besides the first `w - 1`
rows the result is also `NaN` for every row when `w = 1` (denominator
`w - ddof = 0`). -/
def rollingVar (w : ℕ) (xs : List ℚ) : List (Option ℚ) :=
  (List.range xs.length).map (fun i =>
    if 2 ≤ w ∧ w ≤ i + 1 then some (sampleVar (windowSlice w xs i)) else none)

/-- Pandas `Series.rolling(window=w).std()`: square root of the sample variance. -/
noncomputable def rollingStd (w : ℕ) (xs : List ℚ) : List (Option ℝ) :=
  (rollingVar w xs).map (fun v => v.map (fun q => Real.sqrt (q : ℝ)))

/-- The band `upper_band = rolling_mean + bb_std * rolling_std` (source line 132),
with pandas NaN propagation through the arithmetic. -/
noncomputable def bollingerUpper (w : ℕ) (k : ℚ) (xs : List ℚ) : List (Option ℝ) :=
  List.zipWith (fun m s => m.bind (fun mv => s.map (fun sv => (mv : ℝ) + (k : ℝ) * sv)))
    (rollingMean w xs) (rollingStd w xs)

/-- The band `lower_band = rolling_mean - bb_std * rolling_std` (source line 133). -/
noncomputable def bollingerLower (w : ℕ) (k : ℚ) (xs : List ℚ) : List (Option ℝ) :=
  List.zipWith (fun m s => m.bind (fun mv => s.map (fun sv => (mv : ℝ) - (k : ℝ) * sv)))
    (rollingMean w xs) (rollingStd w xs)

/-! ### Indicator calculator: TA-Lib RSI (source line 97)

The TA-Lib RSI: the first `timeperiod` outputs are NaN; the output at index
`timeperiod` uses the simple average of the gains and losses of the first
`timeperiod` price changes; later outputs update those averages with
Wilder smoothing `avg' = (avg * (p - 1) + x) / p`.  The final value is
`100 * avgGain / (avgGain + avgLoss)`, and `0` when that denominator is
zero.  TA-Lib rejects `timeperiod < 2` as a bad parameter, which the
Python wrapper turns into a raised exception. -/

/-- RSI value from the smoothed average gain and loss. -/
def rsiVal (ag al : ℚ) : ℚ :=
  if ag + al = 0 then 0 else 100 * ag / (ag + al)

/-- One step of Wilder smoothing of the (gain, loss) averages with the
next price change `d`. -/
def wilderStep (p : ℕ) (s : ℚ × ℚ) (d : ℚ) : ℚ × ℚ :=
  ((s.1 * ((p : ℚ) - 1) + max d 0) / (p : ℚ),
   (s.2 * ((p : ℚ) - 1) + max (-d) 0) / (p : ℚ))

/-- The consecutive price changes `close[j] - close[j-1]`. -/
def rsiDiffs (xs : List ℚ) : List ℚ :=
  List.zipWith (fun a b => a - b) xs.tail xs

/-- The seed averages: simple means of the gains and of the losses over
the first `p` price changes. -/
def rsiInit (p : ℕ) (xs : List ℚ) : ℚ × ℚ :=
  ((((rsiDiffs xs).take p).map (fun d => max d 0)).sum / (p : ℚ),
   (((rsiDiffs xs).take p).map (fun d => max (-d) 0)).sum / (p : ℚ))

/-- The (gain, loss) average after each output row: the seed averages,
then one Wilder step per remaining price change. -/
def rsiStates (p : ℕ) (xs : List ℚ) : List (ℚ × ℚ) :=
  List.scanl (wilderStep p) (rsiInit p xs) ((rsiDiffs xs).drop p)

/-- The RSI output series for a valid period `p ≥ 2`: all-`NaN` when there
are at most `p` closes, otherwise `p` leading `NaN`s followed by the
Wilder-smoothed oscillator values. -/
def rsiSeries (p : ℕ) (xs : List ℚ) : List (Option ℚ) :=
  if xs.length ≤ p then List.replicate xs.length none
  else List.replicate p none ++ (rsiStates p xs).map (fun s => some (rsiVal s.1 s.2))

/-- The call `talib.RSI(close, timeperiod=p)`: `none` models the exception TA-Lib
raises for `timeperiod < 2` (TA_BAD_PARAM); otherwise the output series. -/
def talibRSI (p : ℕ) (xs : List ℚ) : Option (List (Option ℚ)) :=
  if p < 2 then none else some (rsiSeries p xs)

/-! ### Price table and CSV export -/

/-- Column-name string constants of the OHLCV table. -/
def openColName : String := "Open"

def highColName : String := "High"

def lowColName : String := "Low"

def closeColName : String := "Close"

def volumeColName : String := "Volume"

/-- The price table returned by the Price Series Loader: a date index with
a name (pandas calls it `Date` for daily bars) and named numeric columns. -/
structure DF where
  indexName : String
  index : List String
  cols : List (String × List ℚ)
deriving DecidableEq

/-- Pandas `df.empty`: a frame is empty when either axis has length 0. -/
def DF.isEmptyTable (d : DF) : Bool := d.index.isEmpty || d.cols.isEmpty

/-- Column access `df[name]`: the cell list of a named column (`[]` when absent; the
script only reads the OHLCV columns the provider supplies). -/
def DF.col (d : DF) (name : String) : List ℚ :=
  (((d.cols.find? (fun c => c.1 == name)).map (fun c => c.2)).getD [])

/-- The selection `df[columns_to_show]` (source line 74/75): the sub-table with the
user-selected columns, in selection order. -/
def selectCols (d : DF) (names : List String) : DF :=
  { indexName := d.indexName
    index := d.index
    cols := names.filterMap (fun n => d.cols.find? (fun c => c.1 == n)) }

/-- The records `DataFrame.to_csv` emits with its defaults
(`header=True`, `index=True`): a header record holding the index name and
the column names, then one record per row whose first field is the date
index entry. -/
def csvRecords (d : DF) : List (List String) :=
  (d.indexName :: d.cols.map (fun c => c.1)) ::
    (List.range d.index.length).map (fun i =>
      (d.index.getD i ("")) :: d.cols.map (fun c => toString (c.2.getD i 0)))

/-- Pandas `df.to_csv()`: comma-separated fields, one line per record, each line
terminated by a newline. -/
def DF.to_csv (d : DF) : String :=
  String.join ((csvRecords d).map (fun r => String.intercalate (",") r ++ "\n"))

/-- UTF-8 encoding of a string as a byte list (Python string `encode`). -/
def encodeUtf8 (s : String) : List ℕ :=
  s.toUTF8.toList.map (fun b => b.toNat)

/-- The helper `convert_df_to_csv` (source lines 29-30): the `to_csv` text
of the table, UTF-8 encoded. -/
def convert_df_to_csv (d : DF) : List ℕ := encodeUtf8 (d.to_csv)

/-! ### Ticker Directory Loader HTTP request (source lines 13-16) -/

/-- An outbound HTTP GET: its URL, query parameters, and request headers. -/
structure HttpRequest where
  url : String
  params : List (String × String)
  headers : List (String × String)
deriving DecidableEq

/-- Python `requests.get(url, params=None, **kwargs)`: the second
positional argument is `params`; headers are only sent when passed as the
`headers` keyword argument. -/
def requests_get (url : String) (params : List (String × String))
    (reqHeaders : List (String × String)) : HttpRequest :=
  { url := url, params := params, headers := reqHeaders }

/-- The ticker-list page URL (source line 14). -/
def sp500_url : String := "https://en.wikipedia.org/wiki/List_of_S%26P_500_companies"

/-- The `headers` dict built on source line 15: a spoofed desktop-browser
user-agent. -/
def browser_headers : List (String × String) :=
  [("User-Agent", "Mozilla/5.0 (Windows NT 10.0; Win64; x64) AppleWebKit/537.36 (KHTML, like Gecko) Chrome/91.0.4472.124 Safari/537.36")]

/-- The GET issued on source line 16: `requests.get(sp500_url, headers)`.
The dict is passed positionally, so it binds to `params` and no `headers`
keyword is supplied. -/
def sp500_request : HttpRequest := requests_get sp500_url browser_headers []

/-! ### The script body (source lines 33-166) -/

/-- The sidebar values the Presentation Shell supplies on one run. -/
structure Inputs where
  ticker : String
  startDate : ℤ
  endDate : ℤ
  volumeFlag : Bool
  smaFlag : Bool
  smaPeriods : ℕ
  bbFlag : Bool
  bbPeriods : ℕ
  bbStd : ℕ
  rsiFlag : Bool
  rsiPeriods : ℕ
  rsiUpper : ℕ
  rsiLower : ℕ
  columnsToShow : List String

/-- A trace or horizontal line added to the plotly figure. -/
inductive Trace where
  | candlestick (openS closeS highS lowS : List ℚ)
  | rsiLine (period : ℕ) (y : List (Option ℚ))
  | hline (y : ℚ)
  | volumeBar (y : List ℚ)
  | smaLine (period : ℕ) (y : List (Option ℚ))
  | bbUpper (y : List (Option ℝ))
  | bbLower (y : List (Option ℝ))

/-- The CSV download offer (source lines 76-79). -/
structure Download where
  data : List ℕ
  fileName : String
  mime : String

/-- The chart phase (source lines 82-166): the traces added to the
figure in program order, whether the figure was rendered
(`st.plotly_chart`), and whether the script aborted with an uncaught
exception (TA-Lib bad parameter).  On an empty table only the page error
is shown and no trace is added; otherwise the candlestick is added first,
and when RSI is enabled and `talib.RSI` raises, the script dies after the
candlestick with nothing rendered. -/
noncomputable def buildFigure (inp : Inputs) (df : DF) : List Trace × Bool × Bool :=
  if df.isEmptyTable then ([], false, false)
  else
    let closes := df.col closeColName
    let candle := Trace.candlestick (df.col openColName) (df.col closeColName)
      (df.col highColName) (df.col lowColName)
    let volTs := if inp.volumeFlag then [Trace.volumeBar (df.col volumeColName)] else []
    let smaTs := if inp.smaFlag then
      [Trace.smaLine inp.smaPeriods (rollingMean inp.smaPeriods closes)] else []
    let bbTs := if inp.bbFlag then
      [Trace.bbUpper (bollingerUpper inp.bbPeriods (inp.bbStd : ℚ) closes),
       Trace.bbLower (bollingerLower inp.bbPeriods (inp.bbStd : ℚ) closes)] else []
    if inp.rsiFlag then
      match talibRSI inp.rsiPeriods closes with
      | none => ([candle], false, true)
      | some r =>
        (candle :: ([Trace.rsiLine inp.rsiPeriods r, Trace.hline (inp.rsiUpper : ℚ),
          Trace.hline (inp.rsiLower : ℚ)] ++ volTs ++ smaTs ++ bbTs), true, false)
    else (candle :: (volTs ++ smaTs ++ bbTs), true, false)

/-- Everything one run of the script shows or does. -/
structure AppOutput where
  dateWarning : Bool
  loadArgs : String × ℤ × ℤ
  availableCols : List String
  previewShown : Bool
  download : Download
  figTraces : List Trace
  chartRendered : Bool
  crashed : Bool
  pageError : Bool

/-- One top-to-bottom run of the script body, with the data provider
(`yf.download`) supplied as an oracle.  The date comparison on source
lines 38-39 only raises a sidebar warning; the load, preview, export and
chart phases run unconditionally afterwards with the dates as given. -/
noncomputable def runApp (inp : Inputs) (provider : String → ℤ → ℤ → DF) : AppOutput :=
  let df := provider inp.ticker inp.startDate inp.endDate
  let dsel := selectCols df inp.columnsToShow
  let fig := buildFigure inp df
  { dateWarning := decide (inp.endDate < inp.startDate)
    loadArgs := (inp.ticker, inp.startDate, inp.endDate)
    availableCols := df.cols.map (fun c => c.1)
    previewShown := true
    download :=
      { data := convert_df_to_csv dsel
        fileName := inp.ticker ++ " Daily Stock Prices"
        mime := "text/csv" }
    figTraces := fig.1
    chartRendered := fig.2.1
    crashed := fig.2.2
    pageError := df.isEmptyTable }

/-! ### Concrete fixtures used by the witnesses -/

/-- A three-day OHLCV table. -/
def sampleDF : DF :=
  { indexName := "Date"
    index := ["2023-01-02", "2023-01-03", "2023-01-04"]
    cols := [(openColName, [1, 2, 3]), (highColName, [2, 3, 4]),
             (lowColName, [1, 1, 1]), (closeColName, [1, 2, 3]),
             (volumeColName, [10, 10, 10])] }

/-- An empty result table (no rows). -/
def emptyDF : DF :=
  { indexName := "Date"
    index := []
    cols := [(openColName, []), (highColName, []), (lowColName, []),
             (closeColName, []), (volumeColName, [])] }

/-- A provider returning `sampleDF` for every query. -/
def sampleProvider : String → ℤ → ℤ → DF := fun _ _ _ => sampleDF

/-- A provider returning `emptyDF` for every query. -/
def emptyProvider : String → ℤ → ℤ → DF := fun _ _ _ => emptyDF

/-- Default sidebar values. -/
def baseInputs : Inputs :=
  { ticker := "AAPL"
    startDate := 0
    endDate := 1
    volumeFlag := false
    smaFlag := false
    smaPeriods := 20
    bbFlag := false
    bbPeriods := 20
    bbStd := 2
    rsiFlag := false
    rsiPeriods := 14
    rsiUpper := 70
    rsiLower := 30
    columnsToShow := [openColName, highColName, lowColName, closeColName, volumeColName] }

/-! ### Definedness patterns of the indicator outputs -/

/-- Position `i` of `out` carries a numeric value exactly when `m ≤ i`:
the first `m` positions are missing and every later one is defined. -/
def firstDefinedAt {α : Type} (m : ℕ) (out : List (Option α)) : Prop :=
  ∀ i, (h : i < out.length) → ((out[i]).isSome = true ↔ m ≤ i)

/-- Means `out` has length `n` and its first `m` positions (and only those) are
missing. -/
def leadingPattern {α : Type} (m n : ℕ) (out : List (Option α)) : Prop :=
  out.length = n ∧ firstDefinedAt m out

theorem rollingMean_length (w : ℕ) (xs : List ℚ) :
    (rollingMean w xs).length = xs.length := by
  simp [rollingMean]

theorem rollingVar_length (w : ℕ) (xs : List ℚ) :
    (rollingVar w xs).length = xs.length := by
  simp [rollingVar]

theorem rollingStd_length (w : ℕ) (xs : List ℚ) :
    (rollingStd w xs).length = xs.length := by
  simp [rollingStd, rollingVar_length]

theorem rollingMean_getElem? (w : ℕ) (xs : List ℚ) (i : ℕ) (h : i < xs.length) :
    (rollingMean w xs)[i]? =
      some (if w ≤ i + 1 then some (listMean (windowSlice w xs i)) else none) := by
  simp [rollingMean, List.getElem?_range h]

theorem rollingVar_getElem? (w : ℕ) (xs : List ℚ) (i : ℕ) (h : i < xs.length) :
    (rollingVar w xs)[i]? =
      some (if 2 ≤ w ∧ w ≤ i + 1 then some (sampleVar (windowSlice w xs i)) else none) := by
  simp [rollingVar, List.getElem?_range h]

theorem rollingStd_getElem? (w : ℕ) (xs : List ℚ) (i : ℕ) (h : i < xs.length) :
    (rollingStd w xs)[i]? =
      some (if 2 ≤ w ∧ w ≤ i + 1
        then some (Real.sqrt ((sampleVar (windowSlice w xs i) : ℚ) : ℝ)) else none) := by
  rw [rollingStd, List.getElem?_map, rollingVar_getElem? w xs i h]
  by_cases hc : 2 ≤ w ∧ w ≤ i + 1 <;> simp [hc]

theorem bollingerUpper_getElem? (w : ℕ) (k : ℚ) (xs : List ℚ) (i : ℕ) (h : i < xs.length) :
    (bollingerUpper w k xs)[i]? =
      some (if 2 ≤ w ∧ w ≤ i + 1
        then some ((listMean (windowSlice w xs i) : ℝ) +
          (k : ℝ) * Real.sqrt ((sampleVar (windowSlice w xs i) : ℚ) : ℝ))
        else none) := by
  rw [bollingerUpper, List.getElem?_zipWith', rollingMean_getElem? w xs i h,
    rollingStd_getElem? w xs i h]
  by_cases hc : 2 ≤ w ∧ w ≤ i + 1
  · simp [hc, hc.2]
  · by_cases hm : w ≤ i + 1 <;> simp [hc, hm]

theorem bollingerLower_getElem? (w : ℕ) (k : ℚ) (xs : List ℚ) (i : ℕ) (h : i < xs.length) :
    (bollingerLower w k xs)[i]? =
      some (if 2 ≤ w ∧ w ≤ i + 1
        then some ((listMean (windowSlice w xs i) : ℝ) -
          (k : ℝ) * Real.sqrt ((sampleVar (windowSlice w xs i) : ℚ) : ℝ))
        else none) := by
  rw [bollingerLower, List.getElem?_zipWith', rollingMean_getElem? w xs i h,
    rollingStd_getElem? w xs i h]
  by_cases hc : 2 ≤ w ∧ w ≤ i + 1
  · simp [hc, hc.2]
  · by_cases hm : w ≤ i + 1 <;> simp [hc, hm]

theorem bollingerUpper_length (w : ℕ) (k : ℚ) (xs : List ℚ) :
    (bollingerUpper w k xs).length = xs.length := by
  simp [bollingerUpper, rollingMean_length, rollingStd_length]

theorem bollingerLower_length (w : ℕ) (k : ℚ) (xs : List ℚ) :
    (bollingerLower w k xs).length = xs.length := by
  simp [bollingerLower, rollingMean_length, rollingStd_length]

theorem getElem_of_getElem? {α : Type} {l : List α} {i : ℕ} {x : α}
    (h : i < l.length) (hx : l[i]? = some x) : l[i] = x := by
  rw [List.getElem?_eq_getElem h] at hx
  exact Option.some.inj hx

theorem rollingMean_pattern (w : ℕ) (xs : List ℚ) :
    firstDefinedAt (w - 1) (rollingMean w xs) := by
  intro i h
  have hn : i < xs.length := by
    rwa [rollingMean_length] at h
  rw [getElem_of_getElem? h (rollingMean_getElem? w xs i hn)]
  by_cases hc : w ≤ i + 1
  · simp [hc]
  · simp [hc]

theorem bollingerUpper_pattern (w : ℕ) (k : ℚ) (xs : List ℚ) (hw : 2 ≤ w) :
    firstDefinedAt (w - 1) (bollingerUpper w k xs) := by
  intro i h
  have hn : i < xs.length := by
    rwa [bollingerUpper_length] at h
  rw [getElem_of_getElem? h (bollingerUpper_getElem? w k xs i hn)]
  by_cases hc : 2 ≤ w ∧ w ≤ i + 1
  · simp [hc]
  · simp [hc]
    omega

theorem bollingerLower_pattern (w : ℕ) (k : ℚ) (xs : List ℚ) (hw : 2 ≤ w) :
    firstDefinedAt (w - 1) (bollingerLower w k xs) := by
  intro i h
  have hn : i < xs.length := by
    rwa [bollingerLower_length] at h
  rw [getElem_of_getElem? h (bollingerLower_getElem? w k xs i hn)]
  by_cases hc : 2 ≤ w ∧ w ≤ i + 1
  · simp [hc]
  · simp [hc]
    omega

theorem rsiStates_length (p : ℕ) (xs : List ℚ) :
    (rsiStates p xs).length = ((rsiDiffs xs).length - p) + 1 := by
  simp [rsiStates, List.length_scanl]

theorem rsiDiffs_length (xs : List ℚ) : (rsiDiffs xs).length = xs.length - 1 := by
  simp [rsiDiffs]

theorem rsiSeries_length (p : ℕ) (xs : List ℚ) :
    (rsiSeries p xs).length = xs.length := by
  rw [rsiSeries]
  split
  · simp
  · rename_i hn
    rw [List.length_append, List.length_replicate, List.length_map, rsiStates_length,
      rsiDiffs_length]
    omega

theorem rsiSeries_getElem? (p : ℕ) (xs : List ℚ) (i : ℕ) (hn : i < xs.length) :
    (rsiSeries p xs)[i]? =
      some (if xs.length ≤ p ∨ i < p then none
        else some (rsiVal ((rsiStates p xs).getD (i - p) (rsiInit p xs)).1
          ((rsiStates p xs).getD (i - p) (rsiInit p xs)).2)) := by
  unfold rsiSeries
  split
  · rename_i hle
    rw [List.getElem?_replicate]
    simp [hn, hle]
  · rename_i hgt
    rw [List.getElem?_append, List.length_replicate]
    by_cases hip : i < p
    · rw [if_pos hip, List.getElem?_replicate]
      simp [hip]
    · have hlen : i - p < (rsiStates p xs).length := by
        rw [rsiStates_length, rsiDiffs_length]
        omega
      rw [if_neg hip, List.getElem?_map, List.getElem?_eq_getElem hlen]
      simp [hip, hgt, List.getD_eq_getElem?_getD, List.getElem?_eq_getElem hlen]

theorem rsiSeries_pattern (p : ℕ) (xs : List ℚ) :
    firstDefinedAt p (rsiSeries p xs) := by
  intro i h
  have hn : i < xs.length := by
    rwa [rsiSeries_length] at h
  rw [getElem_of_getElem? h (rsiSeries_getElem? p xs i hn)]
  by_cases hc : xs.length ≤ p ∨ i < p
  · rw [if_pos hc]
    simp
    omega
  · rw [if_neg hc]
    simp
    omega

/-! ### C1: leading-missing pattern of the indicator outputs -/

/-- The claim of the spec, as stated: for every indicator (SMA, both Bollinger
bands, RSI), window `w` and close series with `w ≤ n`, the output has
length `n`, exactly the first `w - 1` positions missing and every later
position numeric. -/
def C1Statement : Prop :=
  ∀ (w : ℕ) (k : ℚ) (xs : List ℚ), 1 ≤ w → w ≤ xs.length →
    leadingPattern (w - 1) xs.length (rollingMean w xs) ∧
    leadingPattern (w - 1) xs.length (bollingerUpper w k xs) ∧
    leadingPattern (w - 1) xs.length (bollingerLower w k xs) ∧
    ∃ out, talibRSI w xs = some out ∧ leadingPattern (w - 1) xs.length out

/-- C1, counterexample: the claim fails for RSI at window `w = 2` on the
two-close series `[1, 2]`: TA-Lib leaves the first `w` positions missing
(it needs `w` price changes, hence `w + 1` closes), so position
`w - 1 = 1` is missing, not numeric. -/
theorem indicator_pattern_claim_refuted : ¬ C1Statement := by
  intro hcl
  obtain ⟨out, hout, _, hpat⟩ :=
    (hcl 2 1 [1, 2] (by norm_num) (by norm_num)).2.2.2
  have he : out = [none, none] := by
    have h2 : talibRSI 2 [1, 2] = some [none, none] := by decide
    exact (Option.some.inj (h2.symm.trans hout)).symm
  subst he
  have hb : (1 : ℕ) < ([none, none] : List (Option ℚ)).length := by decide
  simpa using hpat 1 hb

/-- C1, amended: for SMA the first `w - 1` positions are missing and the
rest numeric; the same holds for both Bollinger bands provided `2 ≤ w`
(with `w = 1` the sample standard deviation, hence each band, is missing
at every position); RSI (whose window must be at least 2, or TA-Lib
rejects it) leaves the first `w` positions missing with every later
position numeric.  All outputs keep the input length. -/
theorem indicator_leading_missing_amended (w : ℕ) (k : ℚ) (xs : List ℚ) :
    (1 ≤ w → leadingPattern (w - 1) xs.length (rollingMean w xs)) ∧
    (2 ≤ w → leadingPattern (w - 1) xs.length (bollingerUpper w k xs) ∧
      leadingPattern (w - 1) xs.length (bollingerLower w k xs)) ∧
    (2 ≤ w → ∃ out, talibRSI w xs = some out ∧ leadingPattern w xs.length out) := by
  refine ⟨fun _ => ⟨rollingMean_length w xs, rollingMean_pattern w xs⟩, fun hw => ?_, fun hw => ?_⟩
  · exact ⟨⟨bollingerUpper_length w k xs, bollingerUpper_pattern w k xs hw⟩,
      ⟨bollingerLower_length w k xs, bollingerLower_pattern w k xs hw⟩⟩
  · refine ⟨rsiSeries w xs, ?_, rsiSeries_length w xs, rsiSeries_pattern w xs⟩
    rw [talibRSI, if_neg (by omega)]

/-- C1, witness: the amended pattern checked at window 2 on `[1, 2]`. -/
theorem indicator_leading_missing_amended_check :
    leadingPattern 1 2 (rollingMean 2 [1, 2]) ∧
    leadingPattern 1 2 (bollingerUpper 2 1 [1, 2]) ∧
    leadingPattern 2 2 (rsiSeries 2 [1, 2]) := by
  refine ⟨(indicator_leading_missing_amended 2 1 [1, 2]).1 (by norm_num),
    ((indicator_leading_missing_amended 2 1 [1, 2]).2.1 (by norm_num)).1, ?_⟩
  obtain ⟨out, hout, hpat⟩ :=
    (indicator_leading_missing_amended 2 1 [1, 2]).2.2 (by norm_num)
  have he : out = rsiSeries 2 [1, 2] := by
    have h2 : talibRSI 2 [1, 2] = some (rsiSeries 2 [1, 2]) := rfl
    exact (Option.some.inj (h2.symm.trans hout)).symm
  exact he ▸ hpat

/-! ### C2: the insufficient-length degenerate case and the RSI fault -/

/-- The smallest RSI window the sidebar accepts:
the RSI Periods `number_input` on source line 56 has minimum 1 and
maximum 20. -/
def rsiPeriodsInputMin : ℕ := 1

/-- C2: the claim says that for `n < w` every indicator yields `n`
missing positions and never faults.  The code violates it: the sidebar
accepts RSI window 1, and `talib.RSI` rejects any call with
`timeperiod = 1` as a bad parameter and raises — here on the length-0
close series (`n = 0 < w = 1`), where the claim demands an empty output
instead of a fault. -/
theorem rsi_min_window_fault :
    rsiPeriodsInputMin = 1 ∧
    ([] : List ℚ).length < rsiPeriodsInputMin ∧
    talibRSI rsiPeriodsInputMin [] = none := by
  decide

/-! ### C7: the user-agent header of the ticker-list GET -/

/-- C7: `get_sp500_components` builds a spoofed desktop user-agent dict
but passes it to `requests.get` positionally, where it binds to the
`params` argument: the GET that goes out carries no headers at all, and
the user-agent pair travels as a query parameter instead. -/
theorem sp500_header_misplaced :
    sp500_request.headers = [] ∧
    sp500_request.params = browser_headers ∧
    (List.lookup ("User-Agent") browser_headers).isSome = true := by
  exact ⟨rfl, rfl, rfl⟩

/-! ### C3: the Bollinger envelope ordering -/

/-- C3: wherever the Bollinger outputs are defined, the upper band is at
least the rolling mean and the rolling mean at least the lower band, for
any positive standard-deviation multiplier `k`. -/
theorem bollinger_band_envelope (w : ℕ) (k : ℚ) (xs : List ℚ) (i : ℕ)
    (m : ℚ) (u l : ℝ) (hk : 0 < k)
    (hm : (rollingMean w xs)[i]? = some (some m))
    (hu : (bollingerUpper w k xs)[i]? = some (some u))
    (hl : (bollingerLower w k xs)[i]? = some (some l)) :
    l ≤ (m : ℝ) ∧ (m : ℝ) ≤ u := by
  have hi : i < (bollingerUpper w k xs).length := by
    by_contra hcon
    rw [List.getElem?_eq_none (Nat.le_of_not_lt hcon)] at hu
    cases hu
  have hn : i < xs.length := by
    rwa [bollingerUpper_length] at hi
  rw [bollingerUpper_getElem? w k xs i hn] at hu
  rw [bollingerLower_getElem? w k xs i hn] at hl
  rw [rollingMean_getElem? w xs i hn] at hm
  have hu' := Option.some.inj hu
  have hl' := Option.some.inj hl
  have hm' := Option.some.inj hm
  by_cases hc : 2 ≤ w ∧ w ≤ i + 1
  · rw [if_pos hc] at hu' hl'
    rw [if_pos hc.2] at hm'
    have hmv := Option.some.inj hm'
    have huv := Option.some.inj hu'
    have hlv := Option.some.inj hl'
    rw [hmv] at huv hlv
    have hknn : (0 : ℝ) ≤ (k : ℝ) := by exact_mod_cast hk.le
    have hs : 0 ≤ Real.sqrt ((sampleVar (windowSlice w xs i) : ℚ) : ℝ) :=
      Real.sqrt_nonneg _
    have hprod : 0 ≤ (k : ℝ) * Real.sqrt ((sampleVar (windowSlice w xs i) : ℚ) : ℝ) :=
      mul_nonneg hknn hs
    constructor
    · rw [← hlv]
      linarith
    · rw [← huv]
      linarith
  · rw [if_neg hc] at hu'
    cases hu'

/-- C3, witness: window 2, multiplier 1, on the constant series `[0, 0]`,
at position 1, where mean and both bands are defined and all equal 0. -/
theorem bollinger_band_envelope_check :
    (0 : ℝ) ≤ ((0 : ℚ) : ℝ) ∧ ((0 : ℚ) : ℝ) ≤ (0 : ℝ) :=
  bollinger_band_envelope 2 1 [0, 0] 1 0 0 0 (by norm_num)
    (by norm_num [rollingMean, windowSlice, listMean, List.range_succ])
    (by rw [bollingerUpper_getElem? 2 1 [0, 0] 1 (by norm_num)]
        norm_num [windowSlice, listMean, sampleVar, Real.sqrt_zero])
    (by rw [bollingerLower_getElem? 2 1 [0, 0] 1 (by norm_num)]
        norm_num [windowSlice, listMean, sampleVar, Real.sqrt_zero])

/-! ### C4: RSI stays within [0, 100] -/

theorem scanl_forall {α β : Type} (P : α → Prop) (f : α → β → α)
    (hf : ∀ a b, P a → P (f a b)) :
    ∀ (l : List β) (a : α), P a → ∀ x ∈ List.scanl f a l, P x := by
  intro l
  induction l with
  | nil =>
    intro a ha x hx
    rw [List.scanl_nil] at hx
    rw [List.mem_singleton.mp hx]
    exact ha
  | cons b t ih =>
    intro a ha x hx
    rw [List.scanl_cons] at hx
    rcases List.mem_append.mp hx with hx1 | hx2
    · rw [List.mem_singleton.mp hx1]
      exact ha
    · exact ih (f a b) (hf a b ha) x hx2

theorem rsiInit_nonneg (p : ℕ) (xs : List ℚ) :
    0 ≤ (rsiInit p xs).1 ∧ 0 ≤ (rsiInit p xs).2 := by
  constructor <;>
  · apply div_nonneg _ (by positivity)
    apply List.sum_nonneg
    intro x hx
    obtain ⟨d, _, rfl⟩ := List.mem_map.mp hx
    exact le_max_right _ _

theorem wilderStep_nonneg (p : ℕ) (hp : 1 ≤ p) (s : ℚ × ℚ) (d : ℚ)
    (h : 0 ≤ s.1 ∧ 0 ≤ s.2) :
    0 ≤ (wilderStep p s d).1 ∧ 0 ≤ (wilderStep p s d).2 := by
  have hp1 : (1 : ℚ) ≤ (p : ℚ) := by exact_mod_cast hp
  constructor
  · apply div_nonneg _ (by positivity)
    exact add_nonneg (mul_nonneg h.1 (by linarith)) (le_max_right _ _)
  · apply div_nonneg _ (by positivity)
    exact add_nonneg (mul_nonneg h.2 (by linarith)) (le_max_right _ _)

theorem rsiStates_nonneg (p : ℕ) (xs : List ℚ) (hp : 1 ≤ p) :
    ∀ s ∈ rsiStates p xs, 0 ≤ s.1 ∧ 0 ≤ s.2 := by
  intro s hs
  exact scanl_forall (fun s => 0 ≤ s.1 ∧ 0 ≤ s.2) (wilderStep p)
    (fun a b ha => wilderStep_nonneg p hp a b ha) _ _ (rsiInit_nonneg p xs) s hs

theorem rsiVal_bounds (ag al : ℚ) (hg : 0 ≤ ag) (hl : 0 ≤ al) :
    0 ≤ rsiVal ag al ∧ rsiVal ag al ≤ 100 := by
  rw [rsiVal]
  split
  · norm_num
  · rename_i hne
    have hpos : 0 < ag + al := lt_of_le_of_ne (add_nonneg hg hl) (Ne.symm hne)
    constructor
    · positivity
    · rw [div_le_iff₀ hpos]
      linarith

/-- C4: every defined position of a `talib.RSI` output lies in [0, 100]. -/
theorem rsi_output_within_bounds (p : ℕ) (xs : List ℚ) (out : List (Option ℚ))
    (hout : talibRSI p xs = some out) (i : ℕ) (v : ℚ)
    (hv : out[i]? = some (some v)) :
    0 ≤ v ∧ v ≤ 100 := by
  rw [talibRSI] at hout
  by_cases hp : p < 2
  · rw [if_pos hp] at hout
    cases hout
  · rw [if_neg hp] at hout
    obtain rfl : out = rsiSeries p xs := (Option.some.inj hout).symm
    have hi : i < (rsiSeries p xs).length := by
      by_contra hcon
      rw [List.getElem?_eq_none (Nat.le_of_not_lt hcon)] at hv
      cases hv
    have hn : i < xs.length := by
      rwa [rsiSeries_length] at hi
    rw [rsiSeries_getElem? p xs i hn] at hv
    have hv' := Option.some.inj hv
    by_cases hc : xs.length ≤ p ∨ i < p
    · rw [if_pos hc] at hv'
      cases hv'
    · rw [if_neg hc] at hv'
      have hval := Option.some.inj hv'
      have hlen : i - p < (rsiStates p xs).length := by
        rw [rsiStates_length, rsiDiffs_length]
        omega
      have hmem : (rsiStates p xs).getD (i - p) (rsiInit p xs) ∈ rsiStates p xs := by
        rw [List.getD_eq_getElem?_getD, List.getElem?_eq_getElem hlen]
        exact List.getElem_mem hlen
      have hnn := rsiStates_nonneg p xs (by omega) _ hmem
      rw [← hval]
      exact rsiVal_bounds _ _ hnn.1 hnn.2

/-- C4, witness: window 2 on the rising series `[1, 2, 3]`, where the
defined RSI value at position 2 is 100. -/
theorem rsi_output_within_bounds_check : (0 : ℚ) ≤ 100 ∧ (100 : ℚ) ≤ 100 :=
  rsi_output_within_bounds 2 [1, 2, 3] [none, none, some 100]
    (by norm_num [talibRSI, rsiSeries, rsiStates, rsiInit, rsiDiffs, wilderStep,
      rsiVal, max_def, List.replicate])
    2 100 (by decide)

/-! ### C5: a start date after the end date only warns -/

/-- C5: when the start date is after the end date the script shows the
sidebar warning and still runs the whole pipeline — the loader is called
with the unchanged dates, the preview and CSV download are produced, and
the chart phase proceeds exactly as `buildFigure` dictates; nothing is
raised. -/
theorem date_warning_nonblocking (inp : Inputs) (provider : String → ℤ → ℤ → DF)
    (h : inp.endDate < inp.startDate) :
    (runApp inp provider).dateWarning = true ∧
    (runApp inp provider).loadArgs = (inp.ticker, inp.startDate, inp.endDate) ∧
    (runApp inp provider).previewShown = true ∧
    (runApp inp provider).download.data =
      convert_df_to_csv
        (selectCols (provider inp.ticker inp.startDate inp.endDate) inp.columnsToShow) ∧
    (runApp inp provider).figTraces =
      (buildFigure inp (provider inp.ticker inp.startDate inp.endDate)).1 ∧
    (runApp inp provider).chartRendered =
      (buildFigure inp (provider inp.ticker inp.startDate inp.endDate)).2.1 ∧
    (runApp inp provider).pageError =
      (provider inp.ticker inp.startDate inp.endDate).isEmptyTable := by
  refine ⟨?_, rfl, rfl, rfl, rfl, rfl, rfl⟩
  simp [runApp]
  exact h

/-- Sidebar values with the start date after the end date. -/
def w5Inputs : Inputs := { baseInputs with startDate := 5, endDate := 3 }

/-- C5, witness: start ordinal 5, end ordinal 3. -/
theorem date_warning_nonblocking_check :
    w5Inputs.endDate < w5Inputs.startDate ∧
    ((runApp w5Inputs sampleProvider).dateWarning = true ∧
     (runApp w5Inputs sampleProvider).loadArgs =
       (w5Inputs.ticker, w5Inputs.startDate, w5Inputs.endDate) ∧
     (runApp w5Inputs sampleProvider).previewShown = true ∧
     (runApp w5Inputs sampleProvider).download.data =
       convert_df_to_csv
         (selectCols (sampleProvider w5Inputs.ticker w5Inputs.startDate w5Inputs.endDate)
           w5Inputs.columnsToShow) ∧
     (runApp w5Inputs sampleProvider).figTraces =
       (buildFigure w5Inputs (sampleProvider w5Inputs.ticker w5Inputs.startDate w5Inputs.endDate)).1 ∧
     (runApp w5Inputs sampleProvider).chartRendered =
       (buildFigure w5Inputs (sampleProvider w5Inputs.ticker w5Inputs.startDate w5Inputs.endDate)).2.1 ∧
     (runApp w5Inputs sampleProvider).pageError =
       (sampleProvider w5Inputs.ticker w5Inputs.startDate w5Inputs.endDate).isEmptyTable) :=
  ⟨by decide, date_warning_nonblocking w5Inputs sampleProvider (by decide)⟩

/-! ### C6: empty table means no chart; otherwise the candlestick leads -/

/-- C6: with an empty Price Series no trace is added, the figure is not
rendered and the page error is shown; with a non-empty one the first
trace added is always the candlestick (even if a later indicator
computation aborts the script) and no page error is shown. -/
theorem empty_table_no_chart (inp : Inputs) (provider : String → ℤ → ℤ → DF) :
    ((provider inp.ticker inp.startDate inp.endDate).isEmptyTable = true →
      (runApp inp provider).figTraces = [] ∧
      (runApp inp provider).chartRendered = false ∧
      (runApp inp provider).pageError = true) ∧
    ((provider inp.ticker inp.startDate inp.endDate).isEmptyTable = false →
      (runApp inp provider).figTraces.head? =
        some (Trace.candlestick
          ((provider inp.ticker inp.startDate inp.endDate).col openColName)
          ((provider inp.ticker inp.startDate inp.endDate).col closeColName)
          ((provider inp.ticker inp.startDate inp.endDate).col highColName)
          ((provider inp.ticker inp.startDate inp.endDate).col lowColName)) ∧
      (runApp inp provider).pageError = false) := by
  constructor
  · intro h
    refine ⟨?_, ?_, ?_⟩ <;> simp [runApp, buildFigure, h]
  · intro h
    constructor
    · cases hf : inp.rsiFlag
      · simp [runApp, buildFigure, h, hf]
      · cases htr : talibRSI inp.rsiPeriods
          ((provider inp.ticker inp.startDate inp.endDate).col closeColName) <;>
          simp [runApp, buildFigure, h, hf, htr]
    · simp [runApp, h]

/-- C6, witness: the empty branch on `emptyDF` and the non-empty branch
on `sampleDF`. -/
theorem empty_table_no_chart_check :
    ((emptyProvider baseInputs.ticker baseInputs.startDate baseInputs.endDate).isEmptyTable = true ∧
      (runApp baseInputs emptyProvider).figTraces = [] ∧
      (runApp baseInputs emptyProvider).chartRendered = false ∧
      (runApp baseInputs emptyProvider).pageError = true) ∧
    ((sampleProvider baseInputs.ticker baseInputs.startDate baseInputs.endDate).isEmptyTable = false ∧
      (runApp baseInputs sampleProvider).figTraces.head? =
        some (Trace.candlestick
          ((sampleProvider baseInputs.ticker baseInputs.startDate baseInputs.endDate).col openColName)
          ((sampleProvider baseInputs.ticker baseInputs.startDate baseInputs.endDate).col closeColName)
          ((sampleProvider baseInputs.ticker baseInputs.startDate baseInputs.endDate).col highColName)
          ((sampleProvider baseInputs.ticker baseInputs.startDate baseInputs.endDate).col lowColName)) ∧
      (runApp baseInputs sampleProvider).pageError = false) :=
  ⟨⟨by decide, (empty_table_no_chart baseInputs emptyProvider).1 (by decide)⟩,
   ⟨by decide, (empty_table_no_chart baseInputs sampleProvider).2 (by decide)⟩⟩

/-! ### C8: the CSV export contract -/

/-- C8: for every table and selected column subset, the offered download
is the UTF-8 encoding of the `to_csv` text of the selected sub-table,
whose first record is the header (index name then the selected column
names) and whose every later record starts with the date index; the
offer carries the filename `"{ticker} Daily Stock Prices"` and MIME type
`text/csv`. -/
theorem csv_export_contract (inp : Inputs) (provider : String → ℤ → ℤ → DF) (d : DF)
    (hd : d = selectCols (provider inp.ticker inp.startDate inp.endDate) inp.columnsToShow) :
    (runApp inp provider).download.fileName = inp.ticker ++ " Daily Stock Prices" ∧
    (runApp inp provider).download.mime = "text/csv" ∧
    (runApp inp provider).download.data = encodeUtf8 (DF.to_csv d) ∧
    (csvRecords d).head? = some (d.indexName :: d.cols.map (fun c => c.1)) ∧
    (csvRecords d).length = d.index.length + 1 ∧
    ∀ i, i < d.index.length →
      ((csvRecords d).getD (i + 1) []).head? = some (d.index.getD i ("")) := by
  subst hd
  refine ⟨rfl, rfl, rfl, rfl, by simp [csvRecords], ?_⟩
  intro i hi
  simp [csvRecords, List.getD_eq_getElem?_getD, List.getElem?_range hi]

/-- C8, witness: the default column selection over `sampleDF`; record 1
starts with the first date of the index. -/
theorem csv_export_contract_check :
    (runApp baseInputs sampleProvider).download.mime = "text/csv" ∧
    ((csvRecords (selectCols sampleDF baseInputs.columnsToShow)).getD 1 []).head? =
      some ((selectCols sampleDF baseInputs.columnsToShow).index.getD 0 ("")) :=
  ⟨(csv_export_contract baseInputs sampleProvider
      (selectCols sampleDF baseInputs.columnsToShow) rfl).2.1,
   (csv_export_contract baseInputs sampleProvider
      (selectCols sampleDF baseInputs.columnsToShow) rfl).2.2.2.2.2 0 (by decide)⟩

/-! ### C9: trace order of the chart -/

/-- The claim of the spec, as stated: on every non-empty Price Series and
every combination of enabled flags, the traces are added in the order
candlestick, RSI line with its two threshold lines, volume bars, SMA
line, Bollinger upper then lower band. -/
def C9Statement : Prop :=
  ∀ (inp : Inputs) (provider : String → ℤ → ℤ → DF),
    (provider inp.ticker inp.startDate inp.endDate).isEmptyTable = false →
    ∃ ry : List (Option ℚ),
      (runApp inp provider).figTraces =
        Trace.candlestick
            ((provider inp.ticker inp.startDate inp.endDate).col openColName)
            ((provider inp.ticker inp.startDate inp.endDate).col closeColName)
            ((provider inp.ticker inp.startDate inp.endDate).col highColName)
            ((provider inp.ticker inp.startDate inp.endDate).col lowColName) ::
          ((if inp.rsiFlag then
              [Trace.rsiLine inp.rsiPeriods ry, Trace.hline (inp.rsiUpper : ℚ),
               Trace.hline (inp.rsiLower : ℚ)]
            else []) ++
           (if inp.volumeFlag then
              [Trace.volumeBar ((provider inp.ticker inp.startDate inp.endDate).col volumeColName)]
            else []) ++
           (if inp.smaFlag then
              [Trace.smaLine inp.smaPeriods
                (rollingMean inp.smaPeriods
                  ((provider inp.ticker inp.startDate inp.endDate).col closeColName))]
            else []) ++
           (if inp.bbFlag then
              [Trace.bbUpper (bollingerUpper inp.bbPeriods (inp.bbStd : ℚ)
                 ((provider inp.ticker inp.startDate inp.endDate).col closeColName)),
               Trace.bbLower (bollingerLower inp.bbPeriods (inp.bbStd : ℚ)
                 ((provider inp.ticker inp.startDate inp.endDate).col closeColName))]
            else []))

/-- Sidebar values that refute the trace-order claim: RSI enabled with
the (UI-accepted) window 1, volume enabled. -/
def cx9Inputs : Inputs :=
  { baseInputs with rsiFlag := true, rsiPeriods := 1, volumeFlag := true }

/-- C9, counterexample: with RSI enabled at window 1, `talib.RSI` raises
after the candlestick was added, so the enabled volume bars (and RSI
line) are never added: the figure holds the candlestick alone. -/
theorem trace_order_claim_refuted : ¬ C9Statement := by
  intro hcl
  obtain ⟨ry, heq⟩ := hcl cx9Inputs sampleProvider (by decide)
  have hfig : (runApp cx9Inputs sampleProvider).figTraces =
      [Trace.candlestick (sampleDF.col openColName) (sampleDF.col closeColName)
        (sampleDF.col highColName) (sampleDF.col lowColName)] := rfl
  rw [hfig] at heq
  have hlen := congrArg List.length heq
  simp [cx9Inputs, baseInputs] at hlen

/-- C9, amended: the claimed order holds for every flag combination
provided an enabled RSI uses a window of at least 2 (window 1 makes
TA-Lib raise after the candlestick, aborting the chart); the figure is
then also rendered. -/
theorem trace_order_amended (inp : Inputs) (provider : String → ℤ → ℤ → DF)
    (h : (provider inp.ticker inp.startDate inp.endDate).isEmptyTable = false)
    (hr : inp.rsiFlag = true → 2 ≤ inp.rsiPeriods) :
    (runApp inp provider).chartRendered = true ∧
    (runApp inp provider).figTraces =
      Trace.candlestick
          ((provider inp.ticker inp.startDate inp.endDate).col openColName)
          ((provider inp.ticker inp.startDate inp.endDate).col closeColName)
          ((provider inp.ticker inp.startDate inp.endDate).col highColName)
          ((provider inp.ticker inp.startDate inp.endDate).col lowColName) ::
        ((if inp.rsiFlag then
            [Trace.rsiLine inp.rsiPeriods
               (rsiSeries inp.rsiPeriods
                 ((provider inp.ticker inp.startDate inp.endDate).col closeColName)),
             Trace.hline (inp.rsiUpper : ℚ), Trace.hline (inp.rsiLower : ℚ)]
          else []) ++
         (if inp.volumeFlag then
            [Trace.volumeBar ((provider inp.ticker inp.startDate inp.endDate).col volumeColName)]
          else []) ++
         (if inp.smaFlag then
            [Trace.smaLine inp.smaPeriods
              (rollingMean inp.smaPeriods
                ((provider inp.ticker inp.startDate inp.endDate).col closeColName))]
          else []) ++
         (if inp.bbFlag then
            [Trace.bbUpper (bollingerUpper inp.bbPeriods (inp.bbStd : ℚ)
               ((provider inp.ticker inp.startDate inp.endDate).col closeColName)),
             Trace.bbLower (bollingerLower inp.bbPeriods (inp.bbStd : ℚ)
               ((provider inp.ticker inp.startDate inp.endDate).col closeColName))]
          else [])) := by
  cases hf : inp.rsiFlag
  · constructor <;> simp [runApp, buildFigure, h, hf]
  · have htr : talibRSI inp.rsiPeriods
        ((provider inp.ticker inp.startDate inp.endDate).col closeColName) =
        some (rsiSeries inp.rsiPeriods
          ((provider inp.ticker inp.startDate inp.endDate).col closeColName)) := by
      rw [talibRSI, if_neg (by have := hr hf; omega)]
    constructor <;> simp [runApp, buildFigure, h, hf, htr]

/-- Sidebar values exercising the amended order: RSI (window 2), volume
and SMA enabled. -/
def w9Inputs : Inputs :=
  { baseInputs with rsiFlag := true, rsiPeriods := 2, volumeFlag := true, smaFlag := true }

/-- C9, witness: the amended order on `sampleDF` with RSI window 2,
volume and SMA enabled. -/
theorem trace_order_amended_check :
    (sampleProvider w9Inputs.ticker w9Inputs.startDate w9Inputs.endDate).isEmptyTable = false ∧
    ((runApp w9Inputs sampleProvider).chartRendered = true ∧
     (runApp w9Inputs sampleProvider).figTraces =
       Trace.candlestick
           ((sampleProvider w9Inputs.ticker w9Inputs.startDate w9Inputs.endDate).col openColName)
           ((sampleProvider w9Inputs.ticker w9Inputs.startDate w9Inputs.endDate).col closeColName)
           ((sampleProvider w9Inputs.ticker w9Inputs.startDate w9Inputs.endDate).col highColName)
           ((sampleProvider w9Inputs.ticker w9Inputs.startDate w9Inputs.endDate).col lowColName) ::
         ((if w9Inputs.rsiFlag then
             [Trace.rsiLine w9Inputs.rsiPeriods
                (rsiSeries w9Inputs.rsiPeriods
                  ((sampleProvider w9Inputs.ticker w9Inputs.startDate w9Inputs.endDate).col closeColName)),
              Trace.hline (w9Inputs.rsiUpper : ℚ), Trace.hline (w9Inputs.rsiLower : ℚ)]
           else []) ++
          (if w9Inputs.volumeFlag then
             [Trace.volumeBar
               ((sampleProvider w9Inputs.ticker w9Inputs.startDate w9Inputs.endDate).col volumeColName)]
           else []) ++
          (if w9Inputs.smaFlag then
             [Trace.smaLine w9Inputs.smaPeriods
               (rollingMean w9Inputs.smaPeriods
                 ((sampleProvider w9Inputs.ticker w9Inputs.startDate w9Inputs.endDate).col closeColName))]
           else []) ++
          (if w9Inputs.bbFlag then
             [Trace.bbUpper (bollingerUpper w9Inputs.bbPeriods (w9Inputs.bbStd : ℚ)
                ((sampleProvider w9Inputs.ticker w9Inputs.startDate w9Inputs.endDate).col closeColName)),
              Trace.bbLower (bollingerLower w9Inputs.bbPeriods (w9Inputs.bbStd : ℚ)
                ((sampleProvider w9Inputs.ticker w9Inputs.startDate w9Inputs.endDate).col closeColName))]
           else []))) :=
  ⟨by decide, trace_order_amended w9Inputs sampleProvider (by decide) (fun _ => by decide)⟩

/-! ### C10: preview and export precede the emptiness check -/

/-- C10: even on an empty Price Series the preview, the CSV encoding of
the (empty) selected sub-table and the download offer are all produced;
only the chart is suppressed, with the page error shown. -/
theorem preview_export_unconditional (inp : Inputs) (provider : String → ℤ → ℤ → DF)
    (h : (provider inp.ticker inp.startDate inp.endDate).isEmptyTable = true) :
    (runApp inp provider).previewShown = true ∧
    (runApp inp provider).download.data =
      convert_df_to_csv
        (selectCols (provider inp.ticker inp.startDate inp.endDate) inp.columnsToShow) ∧
    (runApp inp provider).download.fileName = inp.ticker ++ " Daily Stock Prices" ∧
    (runApp inp provider).download.mime = "text/csv" ∧
    (runApp inp provider).figTraces = [] ∧
    (runApp inp provider).chartRendered = false ∧
    (runApp inp provider).pageError = true := by
  refine ⟨rfl, rfl, rfl, rfl, ?_, ?_, ?_⟩ <;> simp [runApp, buildFigure, h]

/-- C10, witness: the empty table from `emptyProvider`. -/
theorem preview_export_unconditional_check :
    (emptyProvider baseInputs.ticker baseInputs.startDate baseInputs.endDate).isEmptyTable = true ∧
    ((runApp baseInputs emptyProvider).previewShown = true ∧
     (runApp baseInputs emptyProvider).download.data =
       convert_df_to_csv
         (selectCols (emptyProvider baseInputs.ticker baseInputs.startDate baseInputs.endDate)
           baseInputs.columnsToShow) ∧
     (runApp baseInputs emptyProvider).download.fileName =
       baseInputs.ticker ++ " Daily Stock Prices" ∧
     (runApp baseInputs emptyProvider).download.mime = "text/csv" ∧
     (runApp baseInputs emptyProvider).figTraces = [] ∧
     (runApp baseInputs emptyProvider).chartRendered = false ∧
     (runApp baseInputs emptyProvider).pageError = true) :=
  ⟨by decide, preview_export_unconditional baseInputs emptyProvider (by decide)⟩
